import Mathlib

/-!
Shallow embedding of `src/main.py` from the gist-finder repository: the
paginated search loop `search_github_gists(query, page_limit, rate_limit,
verbose)` and the claims about it.

Modelling choices:

* HTTP traffic is abstracted as a stream `responses : Nat -> HttpResult`, one
  element per loop iteration (the loop performs exactly one `session.get` per
  iteration, so the iteration index enumerates requests).
  `HttpResult.requestException` stands for a `requests.RequestException`
  (timeout, connection error); `HttpResult.response` carries the status code,
  the `Retry-After` header when present, and the parsed HTML body.  The
  session-level urllib3 `Retry` policy operates below this interface: a
  `response`/`requestException` is what `session.get` ultimately yields.
* A parsed body (`Page`) records exactly what the code observes through
  BeautifulSoup: the list of `.gist-snippet` elements, each reduced to the
  result of `snippet.find("a", href=True)` (an optional href), and the result
  of `soup.find("a", rel="next")` (an optional anchor whose `href` attribute
  may itself be missing).  Parsing malformed HTML never raises in
  BeautifulSoup, so malformed markup is just some such `Page`.
* Python exceptions other than `requests.RequestException` escape the
  `try/except` and abort the call: `TypeError` from `None['href']` when a
  snippet has no anchored link, `KeyError` from `next_link['href']` when the
  next anchor lacks an href, and `ValueError` from `int(...)` applied to a
  non-numeric `Retry-After` header value.
* `rate_limit` is an optional rational (standing for the Python float or
  `None`); the code tests it with Python truthiness, under which both `None`
  and `0.0` are falsy.
* Side effects are recorded as ghost state: `sleeps` lists the durations
  passed to `time.sleep` (seconds, as rationals), `paths` lists the request
  paths in the order they are fetched, and `extractions` counts the completed
  200-page extraction passes.  Logging and the rich progress bar have no
  observable effect on the claims and are not modelled; `time.sleep` records
  its argument when the duration is nonnegative and raises `ValueError`
  (escaping the `except` clause) when it is negative, as in CPython.
-/

namespace GistFinder

/-- Result of `snippet.find("a", href=True)` for one `.gist-snippet` element:
`some href` when the snippet contains an anchored link, `none` otherwise. -/
structure Snippet where
  anchorHref : Option String
deriving DecidableEq

/-- The anchor returned by `soup.find("a", rel="next")`; its `href` attribute
may be absent (in which case `next_link['href']` raises `KeyError`). -/
structure NextAnchor where
  href : Option String
deriving DecidableEq

/-- What the code observes of a parsed HTML body. -/
structure Page where
  snippets : List Snippet
  nextLink : Option NextAnchor
deriving DecidableEq

/-- Outcome of one `session.get` call. -/
inductive HttpResult where
  | response (status : Nat) (retryAfter : Option String) (page : Page)
  | requestException
deriving DecidableEq

/-- Python exceptions that can escape the loop's `try/except`, which only
catches `requests.RequestException`. -/
inductive PyError where
  | typeError
  | keyError
  | valueError
deriving DecidableEq

/-- The record `keyword_result = {"keyword": query, "gist_urls": [...]}`
returned by `search_github_gists`. -/
structure KeywordResult where
  keyword : String
  gist_urls : List String
deriving DecidableEq

/-- Loop state: the pagination cursor `next_path` and the accumulator
`gist_urls`, plus ghost observations (`sleeps`, requested `paths`, and the
count of completed extraction passes). -/
structure LoopState where
  next_path : String
  gist_urls : List String
  sleeps : List ℚ
  paths : List String
  extractions : Nat
deriving DecidableEq

/-- Python truthiness of the `rate_limit` argument: `None` and `0.0` are
falsy, every other float is truthy. -/
def truthy : Option ℚ → Bool
  | none => false
  | some q => if q = 0 then false else true

/-- Digit run parser used by `pyInt`; accumulator-style, accepting only
decimal digits. -/
def parseDigitsAux : List Char → Nat → Option Nat
  | [], acc => some acc
  | c :: cs, acc =>
    if c.isDigit then parseDigitsAux cs (acc * 10 + (c.toNat - 48)) else none

/-- A non-empty run of decimal digits, or `none`. -/
def parseDigits : List Char → Option Nat
  | [] => none
  | cs => parseDigitsAux cs 0

/-- Strip leading and trailing whitespace from a character list. -/
def trimWs (cs : List Char) : List Char :=
  ((cs.dropWhile Char.isWhitespace).reverse.dropWhile Char.isWhitespace).reverse

/-- Python's `int(s)` on a header string: optional surrounding whitespace, an
optional sign, then decimal digits; `none` models a raised `ValueError`. -/
def pyInt (s : String) : Option Int :=
  match trimWs s.toList with
  | '-' :: cs => (parseDigits cs).map (fun n => -(n : Int))
  | '+' :: cs => (parseDigits cs).map (fun n => (n : Int))
  | cs => (parseDigits cs).map (fun n => (n : Int))

/-- The extraction loop over `soup.select(".gist-snippet")`: for each snippet,
`"https://gist.github.com" + snippet.find("a", href=True)['href']`.  The first
component collects the urls appended before any failure; the second is
`some typeError` when a snippet has no anchored link (Python's
`None['href']`). -/
def gistUrlsOf : List Snippet → List String × Option PyError
  | [] => ([], none)
  | sn :: rest =>
    match sn.anchorHref with
    | none => ([], some PyError.typeError)
    | some href =>
      let r := gistUrlsOf rest
      (("https://gist.github.com" ++ href) :: r.1, r.2)

/-- Outcome of one loop-body execution: continue to the next iteration, break
out of the loop, or raise a Python exception that escapes the call.  The
carried state records the side effects already performed. -/
inductive StepOutcome where
  | cont (s : LoopState)
  | brk (s : LoopState)
  | raise (e : PyError) (s : LoopState)
deriving DecidableEq

/-- One iteration of the `for _ in range(page_limit)` body.  The requested
path is recorded first (`url = f"{BASE_URL}{next_path}"`, `session.get`), then
the source's branches are followed:

* status 200: append `"https://gist.github.com" + href` for every snippet
  (raising `TypeError` at the first snippet without an anchored link), then
  follow the `rel="next"` anchor if present, otherwise break;
* status 429: with a truthy `rate_limit`, sleep
  `int(response.headers.get('Retry-After', 1))` seconds (raising `ValueError`
  when the header value is non-numeric), otherwise sleep the fixed 60-second
  default backoff; `next_path` is not advanced;
* any other status: log and break;
* `requests.RequestException`: sleep `1 / rate_limit` with a truthy
  `rate_limit`, else the 60-second default, and continue with `next_path`
  unchanged.

CPython's `time.sleep` raises `ValueError` on a negative duration, and that
exception escapes the `except requests.RequestException` clause.  This is
modelled wherever a sleep duration can be negative: a negative numeric
`Retry-After` in the 429 branch, and a negative truthy `rate_limit` in the
exception handler (the sign of `1 / rate_limit` is the sign of
`rate_limit`). -/
def step (rate_limit : Option ℚ) (s : LoopState) (r : HttpResult) : StepOutcome :=
  let s1 : LoopState := { s with paths := s.paths ++ [s.next_path] }
  match r with
  | .response status retryAfter page =>
    if status = 200 then
      let ex := gistUrlsOf page.snippets
      let s2 : LoopState := { s1 with gist_urls := s1.gist_urls ++ ex.1 }
      match ex.2 with
      | some e => .raise e s2
      | none =>
        let s3 : LoopState := { s2 with extractions := s2.extractions + 1 }
        match page.nextLink with
        | some a =>
          match a.href with
          | some h => .cont { s3 with next_path := h }
          | none => .raise PyError.keyError s3
        | none => .brk s3
    else if status = 429 then
      match rate_limit with
      | some q =>
        if q = 0 then
          .cont { s1 with sleeps := s1.sleeps ++ [(60 : ℚ)] }
        else
          match retryAfter with
          | none => .cont { s1 with sleeps := s1.sleeps ++ [(1 : ℚ)] }
          | some v =>
            match pyInt v with
            | some n =>
              if n < 0 then .raise PyError.valueError s1
              else .cont { s1 with sleeps := s1.sleeps ++ [(n : ℚ)] }
            | none => .raise PyError.valueError s1
      | none => .cont { s1 with sleeps := s1.sleeps ++ [(60 : ℚ)] }
    else
      .brk s1
  | .requestException =>
    match rate_limit with
    | some q =>
      if q = 0 then
        .cont { s1 with sleeps := s1.sleeps ++ [(60 : ℚ)] }
      else if q < 0 then
        .raise PyError.valueError s1
      else
        .cont { s1 with sleeps := s1.sleeps ++ [1 / q] }
    | none => .cont { s1 with sleeps := s1.sleeps ++ [(60 : ℚ)] }

/-- The loop `for _ in range(page_limit)`, running from iteration index `i`
with `fuel` iterations of budget left.  `Except.error` means a Python
exception escaped the call; the loop state is carried along so the side
effects already performed (requests, sleeps, appends) stay observable. -/
def runFrom (rate_limit : Option ℚ) (responses : Nat → HttpResult) :
    Nat → Nat → LoopState → Except (PyError × LoopState) LoopState
  | _, 0, s => .ok s
  | i, fuel + 1, s =>
    match step rate_limit s (responses i) with
    | .cont s' => runFrom rate_limit responses (i + 1) fuel s'
    | .brk s' => .ok s'
    | .raise e s' => .error (e, s')

/-- `BASE_URL` from the source. -/
def BASE_URL : String := "https://gist.github.com"

/-- The f-string `f"/search?q={query}"`: the query is interpolated verbatim;
the source performs no URL-encoding. -/
def initial_next_path (query : String) : String := "/search?q=" ++ query

/-- Loop state at entry of `search_github_gists`. -/
def initState (query : String) : LoopState :=
  { next_path := initial_next_path query
    gist_urls := []
    sleeps := []
    paths := []
    extractions := 0 }

/-- The whole pagination loop of `search_github_gists`, returning the final
loop state (or the escaped exception together with the state at that
point). -/
def search_run (query : String) (page_limit : Nat := 10) (rate_limit : Option ℚ := none)
    (responses : Nat → HttpResult) : Except (PyError × LoopState) LoopState :=
  runFrom rate_limit responses 0 page_limit (initState query)

/-- `search_github_gists` itself: run the loop and return
`{"keyword": query, "gist_urls": [...]}` (unless a Python exception
escaped). -/
def search_github_gists (query : String) (page_limit : Nat := 10)
    (rate_limit : Option ℚ := none) (responses : Nat → HttpResult) :
    Except (PyError × LoopState) KeywordResult :=
  (search_run query page_limit rate_limit responses).map
    (fun s => { keyword := query, gist_urls := s.gist_urls })

/-- State carried by a step outcome. -/
def outState : StepOutcome → LoopState
  | .cont s => s
  | .brk s => s
  | .raise _ s => s

/-- State carried by a loop result, whether it returned or raised. -/
def finalState : Except (PyError × LoopState) LoopState → LoopState
  | .ok s => s
  | .error es => es.2

/-- Whether an `Except` value is a normal return. -/
def exceptIsOk {ε α : Type} : Except ε α → Bool
  | .ok _ => true
  | .error _ => false

/-- The keyword recorded in a normally-returned result. -/
def resultKeyword : Except (PyError × LoopState) KeywordResult → Option String
  | .ok r => some r.keyword
  | .error _ => none

/-- Every recorded sleep lasted exactly the 60-second default backoff. -/
def all60 (l : List ℚ) : Bool := l.all (fun d => decide (d = 60))

/-- The sleep duration the `requests.RequestException` handler performs, as a
function of `rate_limit` (`1 / rate_limit` when truthy, 60 seconds
otherwise). -/
def errSleep (rate_limit : Option ℚ) : ℚ :=
  match rate_limit with
  | some q => if q = 0 then 60 else 1 / q
  | none => 60

/-- The sleep duration the 429 branch performs when it does not raise:
`int(headers.get('Retry-After', 1))` seconds with a truthy `rate_limit`
(`getD 0` is never reached under the well-formedness hypothesis used with
it), 60 seconds otherwise. -/
def sleep429 (rate_limit : Option ℚ) (retryAfter : Option String) : ℚ :=
  match rate_limit with
  | some q =>
    if q = 0 then 60
    else
      match retryAfter with
      | none => 1
      | some v => (((pyInt v).getD 0 : Int) : ℚ)
  | none => 60

/-- A page on which the 200 branch raises no exception: every snippet has an
anchored link, and the next anchor (when present) has an href. -/
def goodPage (p : Page) : Prop :=
  (∀ sn ∈ p.snippets, sn.anchorHref.isSome = true) ∧
  (∀ a, p.nextLink = some a → a.href.isSome = true)

/-- A response on which one loop iteration raises no Python exception: a 200
page must be well formed, a 429 handled under a truthy rate limit must carry
an absent or nonnegative-numeric `Retry-After` (otherwise `int(...)` or
`time.sleep` raises `ValueError`), and a transport error handled under a
truthy rate limit requires a positive rate (a negative rate makes
`time.sleep(1 / rate_limit)` raise `ValueError`). -/
def goodResp (rate_limit : Option ℚ) : HttpResult → Prop
  | .response status retryAfter p =>
    (status = 200 → goodPage p) ∧
    (status = 429 → truthy rate_limit = true →
      ∀ v, retryAfter = some v → ∃ n, pyInt v = some n ∧ 0 ≤ n)
  | .requestException =>
    truthy rate_limit = true → ∀ q, rate_limit = some q → 0 < q

end GistFinder

namespace GistFinder

/-! ### Lemmas about a single loop iteration -/

theorem truthy_some_true {q : ℚ} (hq : q ≠ 0) : truthy (some q) = true := by
  simp [truthy, hq]

theorem truthy_some_ne {q : ℚ} (h : truthy (some q) = true) : q ≠ 0 := by
  intro h0
  subst h0
  simp [truthy] at h

theorem gistUrlsOf_err_none {l : List Snippet}
    (h : ∀ sn ∈ l, sn.anchorHref.isSome = true) : (gistUrlsOf l).2 = none := by
  induction l with
  | nil => rfl
  | cons sn rest ih =>
    have h1 := h sn (by simp)
    cases hs : sn.anchorHref with
    | none => rw [hs] at h1; simp at h1
    | some href =>
      simp only [gistUrlsOf, hs]
      exact ih fun x hx => h x (by simp [hx])

theorem step_200_cont (rl : Option ℚ) (s : LoopState) (ra : Option String) (p : Page)
    (a : NextAnchor) (h : String) (he : (gistUrlsOf p.snippets).2 = none)
    (hn : p.nextLink = some a) (hh : a.href = some h) :
    step rl s (.response 200 ra p) = .cont
      { next_path := h
        gist_urls := s.gist_urls ++ (gistUrlsOf p.snippets).1
        sleeps := s.sleeps
        paths := s.paths ++ [s.next_path]
        extractions := s.extractions + 1 } := by
  simp [step, he, hn, hh]

theorem step_200_brk (rl : Option ℚ) (s : LoopState) (ra : Option String) (p : Page)
    (he : (gistUrlsOf p.snippets).2 = none) (hn : p.nextLink = none) :
    step rl s (.response 200 ra p) = .brk
      { next_path := s.next_path
        gist_urls := s.gist_urls ++ (gistUrlsOf p.snippets).1
        sleeps := s.sleeps
        paths := s.paths ++ [s.next_path]
        extractions := s.extractions + 1 } := by
  simp [step, he, hn]

theorem step_other_brk (rl : Option ℚ) (s : LoopState) (ra : Option String) (p : Page)
    (status : Nat) (h1 : status ≠ 200) (h2 : status ≠ 429) :
    step rl s (.response status ra p) = .brk
      { s with paths := s.paths ++ [s.next_path] } := by
  simp [step, h1, h2]

theorem step_exn_cont (rl : Option ℚ) (s : LoopState)
    (hq : truthy rl = true → ∀ q, rl = some q → 0 < q) :
    step rl s .requestException = .cont
      { s with paths := s.paths ++ [s.next_path], sleeps := s.sleeps ++ [errSleep rl] } := by
  cases rl with
  | none => rfl
  | some q =>
    by_cases h0 : q = 0
    · simp [step, errSleep, h0]
    · have hpos : 0 < q := hq (truthy_some_true h0) q rfl
      have hneg : ¬q < 0 := not_lt.mpr (le_of_lt hpos)
      simp [step, errSleep, h0, hneg]

theorem step_exn_raise (s : LoopState) (q : ℚ) (hneg : q < 0) :
    step (some q) s .requestException = .raise PyError.valueError
      { s with paths := s.paths ++ [s.next_path] } := by
  have h0 : q ≠ 0 := ne_of_lt hneg
  simp [step, h0, hneg]

theorem step_429_cont (rl : Option ℚ) (s : LoopState) (ra : Option String) (p : Page)
    (hra : truthy rl = true → ∀ v, ra = some v → ∃ n, pyInt v = some n ∧ 0 ≤ n) :
    step rl s (.response 429 ra p) = .cont
      { s with paths := s.paths ++ [s.next_path], sleeps := s.sleeps ++ [sleep429 rl ra] } := by
  cases rl with
  | none => simp [step, sleep429]
  | some q =>
    by_cases hq : q = 0
    · simp [step, sleep429, hq]
    · have htr : truthy (some q) = true := truthy_some_true hq
      cases hrac : ra with
      | none => simp [step, sleep429, hq]
      | some v =>
        obtain ⟨n, hpc, hnn⟩ := hra htr v hrac
        have hn : ¬n < 0 := by omega
        simp [step, sleep429, hq, hpc, hn]

end GistFinder

namespace GistFinder

theorem step_paths (rl : Option ℚ) (s : LoopState) (r : HttpResult) :
    (outState (step rl s r)).paths = s.paths ++ [s.next_path] := by
  cases r with
  | requestException =>
    cases rl with
    | none => rfl
    | some q =>
      by_cases h0 : q = 0
      · simp [step, h0, outState]
      · by_cases hneg : q < 0
        · simp [step, h0, hneg, outState]
        · simp [step, h0, hneg, outState]
  | response status ra p =>
    by_cases h200 : status = 200
    · subst h200
      cases he : (gistUrlsOf p.snippets).2 with
      | some e => simp [step, he, outState]
      | none =>
        cases hn : p.nextLink with
        | none => rw [step_200_brk rl s ra p he hn]; rfl
        | some a =>
          cases hh : a.href with
          | none => simp [step, he, hn, hh, outState]
          | some h => rw [step_200_cont rl s ra p a h he hn hh]; rfl
    · by_cases h429 : status = 429
      · subst h429
        cases rl with
        | none => simp [step, h200, outState]
        | some q =>
          by_cases hq : q = 0
          · simp [step, h200, hq, outState]
          · cases hra : ra with
            | none => simp [step, h200, hq, outState]
            | some v =>
              cases hp : pyInt v with
              | none => simp [step, h200, hq, hp, outState]
              | some n =>
                by_cases hn : n < 0
                · simp [step, h200, hq, hp, hn, outState]
                · simp [step, h200, hq, hp, hn, outState]
      · rw [step_other_brk rl s ra p status h200 h429]; rfl

theorem step_urls_mono (rl : Option ℚ) (s : LoopState) (r : HttpResult) :
    s.gist_urls <+: (outState (step rl s r)).gist_urls := by
  cases r with
  | requestException =>
    cases rl with
    | none => exact List.prefix_rfl
    | some q =>
      by_cases h0 : q = 0
      · simp [step, h0, outState]
      · by_cases hneg : q < 0
        · simp [step, h0, hneg, outState]
        · simp [step, h0, hneg, outState]
  | response status ra p =>
    by_cases h200 : status = 200
    · subst h200
      cases he : (gistUrlsOf p.snippets).2 with
      | some e =>
        simp only [step, he, outState]
        exact List.prefix_append _ _
      | none =>
        cases hn : p.nextLink with
        | none =>
          rw [step_200_brk rl s ra p he hn]
          exact List.prefix_append _ _
        | some a =>
          cases hh : a.href with
          | none =>
            simp only [step, he, hn, hh, outState]
            exact List.prefix_append _ _
          | some h =>
            rw [step_200_cont rl s ra p a h he hn hh]
            exact List.prefix_append _ _
    · by_cases h429 : status = 429
      · subst h429
        cases rl with
        | none => simp [step, h200, outState]
        | some q =>
          by_cases hq : q = 0
          · simp [step, h200, hq, outState]
          · cases hra : ra with
            | none => simp [step, h200, hq, outState]
            | some v =>
              cases hp : pyInt v with
              | none => simp [step, h200, hq, hp, outState]
              | some n =>
                by_cases hn : n < 0
                · simp [step, h200, hq, hp, hn, outState]
                · simp [step, h200, hq, hp, hn, outState]
      · rw [step_other_brk rl s ra p status h200 h429]
        exact List.prefix_rfl

theorem step_no_raise (rl : Option ℚ) (r : HttpResult) (hr : goodResp rl r)
    (s : LoopState) : ∀ e s', step rl s r ≠ .raise e s' := by
  intro e s' hcontra
  cases r with
  | requestException =>
    rw [step_exn_cont rl s hr] at hcontra
    exact StepOutcome.noConfusion hcontra
  | response status ra p =>
    obtain ⟨h200g, h429g⟩ := hr
    by_cases h200 : status = 200
    · subst h200
      obtain ⟨hsn, hnl⟩ := h200g rfl
      have he : (gistUrlsOf p.snippets).2 = none := gistUrlsOf_err_none hsn
      cases hn : p.nextLink with
      | none => rw [step_200_brk rl s ra p he hn] at hcontra; exact StepOutcome.noConfusion hcontra
      | some a =>
        have ha := hnl a hn
        cases hh : a.href with
        | none => rw [hh] at ha; simp at ha
        | some h =>
          rw [step_200_cont rl s ra p a h he hn hh] at hcontra
          exact StepOutcome.noConfusion hcontra
    · by_cases h429 : status = 429
      · subst h429
        have h429g' : truthy rl = true → ∀ v, ra = some v → ∃ n, pyInt v = some n ∧ 0 ≤ n :=
          h429g rfl
        rw [step_429_cont rl s ra p h429g'] at hcontra
        exact StepOutcome.noConfusion hcontra
      · rw [step_other_brk rl s ra p status h200 h429] at hcontra
        exact StepOutcome.noConfusion hcontra

theorem step_sleeps_default (rl : Option ℚ) (s : LoopState) (r : HttpResult)
    (hrl : rl = none ∨ rl = some 0) :
    (outState (step rl s r)).sleeps = s.sleeps ∨
    (outState (step rl s r)).sleeps = s.sleeps ++ [(60 : ℚ)] := by
  have hfalsy : truthy rl = false := by
    rcases hrl with h | h <;> subst h <;> simp [truthy]
  cases r with
  | requestException =>
    have hpos : truthy rl = true → ∀ q, rl = some q → 0 < q := by
      rw [hfalsy]; intro h; exact absurd h (by simp)
    rw [step_exn_cont rl s hpos]
    right
    have : errSleep rl = 60 := by
      rcases hrl with h | h <;> subst h <;> simp [errSleep]
    rw [this]; rfl
  | response status ra p =>
    by_cases h200 : status = 200
    · subst h200
      cases he : (gistUrlsOf p.snippets).2 with
      | some e => left; simp [step, he, outState]
      | none =>
        cases hn : p.nextLink with
        | none => left; rw [step_200_brk rl s ra p he hn]; rfl
        | some a =>
          cases hh : a.href with
          | none => left; simp [step, he, hn, hh, outState]
          | some h => left; rw [step_200_cont rl s ra p a h he hn hh]; rfl
    · by_cases h429 : status = 429
      · subst h429
        have hra : truthy rl = true → ∀ v, ra = some v → ∃ n, pyInt v = some n ∧ 0 ≤ n := by
          rw [hfalsy]; intro h; exact absurd h (by simp)
        rw [step_429_cont rl s ra p hra]
        right
        have : sleep429 rl ra = 60 := by
          rcases hrl with h | h <;> subst h <;> simp [sleep429]
        rw [this]; rfl
      · left; rw [step_other_brk rl s ra p status h200 h429]; rfl

end GistFinder

namespace GistFinder

/-! ### Unfolding and invariant lemmas for the loop -/

theorem runFrom_zero (rl : Option ℚ) (resp : Nat → HttpResult) (i : Nat) (s : LoopState) :
    runFrom rl resp i 0 s = .ok s := rfl

theorem runFrom_succ_cont (rl : Option ℚ) (resp : Nat → HttpResult) (i f : Nat)
    (s s' : LoopState) (hstep : step rl s (resp i) = .cont s') :
    runFrom rl resp i (f + 1) s = runFrom rl resp (i + 1) f s' := by
  rw [runFrom, hstep]

theorem runFrom_succ_brk (rl : Option ℚ) (resp : Nat → HttpResult) (i f : Nat)
    (s s' : LoopState) (hstep : step rl s (resp i) = .brk s') :
    runFrom rl resp i (f + 1) s = .ok s' := by
  rw [runFrom, hstep]

theorem runFrom_succ_raise (rl : Option ℚ) (resp : Nat → HttpResult) (i f : Nat)
    (s s' : LoopState) (e : PyError) (hstep : step rl s (resp i) = .raise e s') :
    runFrom rl resp i (f + 1) s = .error (e, s') := by
  rw [runFrom, hstep]

theorem runFrom_urls_mono (rl : Option ℚ) (resp : Nat → HttpResult) :
    ∀ fuel i s, s.gist_urls <+: (finalState (runFrom rl resp i fuel s)).gist_urls := by
  intro fuel
  induction fuel with
  | zero => intro i s; exact List.prefix_rfl
  | succ f ih =>
    intro i s
    have hmono := step_urls_mono rl s (resp i)
    cases hstep : step rl s (resp i) with
    | cont s' =>
      rw [hstep] at hmono
      simp only [outState] at hmono
      rw [runFrom_succ_cont rl resp i f s s' hstep]
      exact hmono.trans (ih (i + 1) s')
    | brk s' =>
      rw [hstep] at hmono
      simp only [outState] at hmono
      rw [runFrom_succ_brk rl resp i f s s' hstep]
      exact hmono
    | raise e s' =>
      rw [hstep] at hmono
      simp only [outState] at hmono
      rw [runFrom_succ_raise rl resp i f s s' e hstep]
      exact hmono

theorem runFrom_paths_mono (rl : Option ℚ) (resp : Nat → HttpResult) :
    ∀ fuel i s, s.paths <+: (finalState (runFrom rl resp i fuel s)).paths := by
  intro fuel
  induction fuel with
  | zero => intro i s; exact List.prefix_rfl
  | succ f ih =>
    intro i s
    have hp := step_paths rl s (resp i)
    cases hstep : step rl s (resp i) with
    | cont s' =>
      rw [hstep] at hp
      simp only [outState] at hp
      rw [runFrom_succ_cont rl resp i f s s' hstep]
      have h1 : s.paths <+: s'.paths := by
        rw [hp]; exact List.prefix_append _ _
      exact h1.trans (ih (i + 1) s')
    | brk s' =>
      rw [hstep] at hp
      simp only [outState] at hp
      rw [runFrom_succ_brk rl resp i f s s' hstep]
      rw [show (finalState (Except.ok s' : Except (PyError × LoopState) LoopState)) = s' from rfl, hp]
      exact List.prefix_append _ _
    | raise e s' =>
      rw [hstep] at hp
      simp only [outState] at hp
      rw [runFrom_succ_raise rl resp i f s s' e hstep]
      rw [show (finalState (Except.error (e, s') : Except (PyError × LoopState) LoopState)) = s' from rfl, hp]
      exact List.prefix_append _ _

theorem runFrom_total (rl : Option ℚ) (resp : Nat → HttpResult)
    (hg : ∀ i, goodResp rl (resp i)) :
    ∀ fuel i s, exceptIsOk (runFrom rl resp i fuel s) = true := by
  intro fuel
  induction fuel with
  | zero => intro i s; rfl
  | succ f ih =>
    intro i s
    cases hstep : step rl s (resp i) with
    | cont s' =>
      rw [runFrom_succ_cont rl resp i f s s' hstep]
      exact ih (i + 1) s'
    | brk s' =>
      rw [runFrom_succ_brk rl resp i f s s' hstep]
      rfl
    | raise e s' =>
      exact absurd hstep (step_no_raise rl (resp i) (hg i) s e s')

theorem runFrom_sleeps_default (rl : Option ℚ) (resp : Nat → HttpResult)
    (hrl : rl = none ∨ rl = some 0) :
    ∀ fuel i s, all60 s.sleeps = true →
      all60 (finalState (runFrom rl resp i fuel s)).sleeps = true := by
  intro fuel
  induction fuel with
  | zero => intro i s h; exact h
  | succ f ih =>
    intro i s h
    have hs' : all60 (outState (step rl s (resp i))).sleeps = true := by
      rcases step_sleeps_default rl s (resp i) hrl with hd | hd
      · rw [hd]; exact h
      · rw [hd]
        simp only [all60, List.all_append] at h ⊢
        simp [h]
    cases hstep : step rl s (resp i) with
    | cont s' =>
      rw [hstep] at hs'
      simp only [outState] at hs'
      rw [runFrom_succ_cont rl resp i f s s' hstep]
      exact ih (i + 1) s' hs'
    | brk s' =>
      rw [hstep] at hs'
      simp only [outState] at hs'
      rw [runFrom_succ_brk rl resp i f s s' hstep]
      exact hs'
    | raise e s' =>
      rw [hstep] at hs'
      simp only [outState] at hs'
      rw [runFrom_succ_raise rl resp i f s s' e hstep]
      exact hs'

end GistFinder

namespace GistFinder

/-- Running the loop over a chain of `N` successful pages (every page before
the last carries a usable next link, the last carries none, and every snippet
extracts without raising) returns normally and performs exactly
`min (N - i) fuel` further extraction passes. -/
theorem runFrom_chain (rl : Option ℚ) (resp : Nat → HttpResult) (N : Nat)
    (hmid : ∀ i, i + 1 < N → ∃ ra p a h, resp i = .response 200 ra p ∧
      (gistUrlsOf p.snippets).2 = none ∧ p.nextLink = some a ∧ a.href = some h)
    (hlast : ∃ ra p, resp (N - 1) = .response 200 ra p ∧
      (gistUrlsOf p.snippets).2 = none ∧ p.nextLink = none) :
    ∀ fuel i s, i < N →
      exceptIsOk (runFrom rl resp i fuel s) = true ∧
      (finalState (runFrom rl resp i fuel s)).extractions =
        s.extractions + min (N - i) fuel := by
  intro fuel
  induction fuel with
  | zero =>
    intro i s hi
    refine ⟨rfl, ?_⟩
    rw [runFrom_zero]
    simp only [finalState]
    omega
  | succ f ih =>
    intro i s hi
    by_cases hend : i + 1 = N
    · obtain ⟨ra, p, hresp, he, hn⟩ := hlast
      have hNi : N - 1 = i := by omega
      rw [hNi] at hresp
      have hstep := step_200_brk rl s ra p he hn
      rw [← hresp] at hstep
      rw [runFrom_succ_brk rl resp i f s _ hstep]
      refine ⟨rfl, ?_⟩
      simp only [finalState]
      omega
    · have hmidc : i + 1 < N := by omega
      obtain ⟨ra, p, a, h, hresp, he, hn, hh⟩ := hmid i hmidc
      have hstep := step_200_cont rl s ra p a h he hn hh
      rw [← hresp] at hstep
      rw [runFrom_succ_cont rl resp i f s _ hstep]
      obtain ⟨hok, hext⟩ := ih (i + 1) _ (by omega)
      refine ⟨hok, ?_⟩
      rw [hext]
      simp only []
      omega

end GistFinder

namespace GistFinder

/-! ### Claim C1 -/

/-- Response stream whose first page is HTTP 200 with a `.gist-snippet`
containing no anchored link: `snippet.find("a", href=True)` returns `None`,
so the source evaluates `None['href']` and raises `TypeError`, which the
`except requests.RequestException` clause does not catch. -/
def c1Responses : Nat → HttpResult :=
  fun _ => .response 200 none { snippets := [{ anchorHref := none }], nextLink := none }

/-- Claim C1 is false as stated: on the query `"x"` with a page whose single
snippet has no anchored link, `search_github_gists` propagates a `TypeError`
to its caller instead of returning a result object. -/
theorem claim_C1_counterexample :
    exceptIsOk (search_github_gists "x" 10 none c1Responses) = false := rfl

/-- Claim C1 (amended): for every input (query, page_limit, rate_limit) and
every response sequence in which each HTTP 200 page's snippets all contain an
anchored link, each next anchor has an href, each `Retry-After` value handled
under a truthy rate limit parses to a nonnegative integer, and the rate limit
is positive whenever it is truthy and a transport error is handled,
`search_github_gists` never propagates an exception to its caller and returns
a well-formed result object carrying the query as its keyword.  (Outside
these conditions the code raises `TypeError` from `None['href']`, `KeyError`
from `next_link['href']`, or `ValueError` from `int(...)` or from
`time.sleep` on a negative duration - none of which its `except` clause
catches.) -/
theorem claim_C1_amended (query : String) (page_limit : Nat) (rate_limit : Option ℚ)
    (responses : Nat → HttpResult) (hg : ∀ i, goodResp rate_limit (responses i)) :
    exceptIsOk (search_github_gists query page_limit rate_limit responses) = true ∧
    resultKeyword (search_github_gists query page_limit rate_limit responses) = some query := by
  have h := runFrom_total rate_limit responses hg page_limit 0 (initState query)
  unfold search_github_gists search_run
  cases hr : runFrom rate_limit responses 0 page_limit (initState query) with
  | ok s => exact ⟨rfl, rfl⟩
  | error es => rw [hr] at h; simp [exceptIsOk] at h

/-- A response stream satisfying the amended hypotheses. -/
def c1GoodResponses : Nat → HttpResult :=
  fun _ => .response 200 none { snippets := [{ anchorHref := some "/alice/123" }], nextLink := none }

theorem claim_C1_witness :
    exceptIsOk (search_github_gists "x" 10 none c1GoodResponses) = true ∧
    resultKeyword (search_github_gists "x" 10 none c1GoodResponses) = some "x" := by
  refine claim_C1_amended "x" 10 none c1GoodResponses fun i => ?_
  simp [c1GoodResponses, goodResp, goodPage]

/-! ### Claim C2 -/

/-- Claim C2 (confirmed): for every query whose response sequence consists of
`N` successful (HTTP 200) pages chained by next links, with no rate-limiting
and no errors, `search_github_gists` performs exactly `min N page_limit`
extraction passes (pages whose snippets are parsed and appended), and the
loop returns normally. -/
theorem claim_C2 (query : String) (page_limit : Nat) (rate_limit : Option ℚ)
    (responses : Nat → HttpResult) (N : Nat) (hN : 0 < N)
    (hmid : ∀ i, i + 1 < N → ∃ ra p a h, responses i = .response 200 ra p ∧
      (gistUrlsOf p.snippets).2 = none ∧ p.nextLink = some a ∧ a.href = some h)
    (hlast : ∃ ra p, responses (N - 1) = .response 200 ra p ∧
      (gistUrlsOf p.snippets).2 = none ∧ p.nextLink = none) :
    exceptIsOk (search_run query page_limit rate_limit responses) = true ∧
    (finalState (search_run query page_limit rate_limit responses)).extractions =
      min N page_limit := by
  have h := runFrom_chain rate_limit responses N hmid hlast page_limit 0 (initState query) hN
  unfold search_run
  refine ⟨h.1, ?_⟩
  rw [h.2]
  simp [initState]

/-- First page of a two-page chain: two snippets and a next link. -/
def chainPage1 : Page :=
  { snippets := [{ anchorHref := some "/a/1" }, { anchorHref := some "/a/2" }]
    nextLink := some { href := some "/search?q=x&p=2" } }

/-- Last page of the chain: one snippet, no next link. -/
def chainPage2 : Page :=
  { snippets := [{ anchorHref := some "/a/3" }], nextLink := none }

/-- A two-page chained response stream. -/
def c2Responses : Nat → HttpResult :=
  fun i => if i = 0 then .response 200 none chainPage1 else .response 200 none chainPage2

theorem claim_C2_witness :
    exceptIsOk (search_run "x" 3 none c2Responses) = true ∧
    (finalState (search_run "x" 3 none c2Responses)).extractions = min 2 3 := by
  refine claim_C2 "x" 3 none c2Responses 2 (by omega) ?_ ?_
  · intro i hi
    have h0 : i = 0 := by omega
    subst h0
    exact ⟨none, chainPage1, { href := some "/search?q=x&p=2" }, "/search?q=x&p=2",
      rfl, rfl, rfl, rfl⟩
  · exact ⟨none, chainPage2, rfl, rfl, rfl⟩

end GistFinder

namespace GistFinder

/-! ### Claim C3 -/

/-- Claim C3 (confirmed): for every HTTP 200 response that contains no
`rel="next"` anchor, the loop terminates immediately after extracting and
appending that page's snippet links, even when `f` further iterations of the
`page_limit` budget remain; the returned `gist_urls` ends with that last
page's links. -/
theorem claim_C3 (rate_limit : Option ℚ) (responses : Nat → HttpResult) (k f : Nat)
    (s : LoopState) (ra : Option String) (p : Page)
    (hresp : responses k = .response 200 ra p)
    (he : (gistUrlsOf p.snippets).2 = none)
    (hn : p.nextLink = none) :
    runFrom rate_limit responses k (f + 1) s = .ok
      { next_path := s.next_path
        gist_urls := s.gist_urls ++ (gistUrlsOf p.snippets).1
        sleeps := s.sleeps
        paths := s.paths ++ [s.next_path]
        extractions := s.extractions + 1 } := by
  have hstep := step_200_brk rate_limit s ra p he hn
  rw [← hresp] at hstep
  exact runFrom_succ_brk rate_limit responses k f s _ hstep

/-- A stream whose every element is the 200 page without a next link. -/
def c3Responses : Nat → HttpResult := fun _ => .response 200 none chainPage2

theorem claim_C3_witness :
    runFrom none c3Responses 0 5 (initState "w") = .ok
      { next_path := "/search?q=w"
        gist_urls := ["https://gist.github.com/a/3"]
        sleeps := []
        paths := ["/search?q=w"]
        extractions := 1 } := by
  have h := claim_C3 none c3Responses 0 4 (initState "w") none chainPage2 rfl rfl rfl
  exact h

/-! ### Claim C4 -/

/-- Claim C4 (confirmed): for every response whose status is neither 200 nor
429 (for example 403), the loop stops immediately: the result is a normal
return (no exception), with no sleep recorded, no retry (the remaining budget
`f` is unused), and exactly the URLs accumulated from earlier pages. -/
theorem claim_C4 (rate_limit : Option ℚ) (responses : Nat → HttpResult) (k f : Nat)
    (s : LoopState) (status : Nat) (ra : Option String) (p : Page)
    (hresp : responses k = .response status ra p)
    (h200 : status ≠ 200) (h429 : status ≠ 429) :
    runFrom rate_limit responses k (f + 1) s =
      .ok { s with paths := s.paths ++ [s.next_path] } := by
  have hstep := step_other_brk rate_limit s ra p status h200 h429
  rw [← hresp] at hstep
  exact runFrom_succ_brk rate_limit responses k f s _ hstep

/-- Every request is answered with HTTP 403 (the spec's end-to-end
scenario). -/
def c4Responses : Nat → HttpResult :=
  fun _ => .response 403 none { snippets := [], nextLink := none }

theorem claim_C4_witness :
    runFrom none c4Responses 0 10 (initState "foo") = .ok
      { next_path := "/search?q=foo"
        gist_urls := []
        sleeps := []
        paths := ["/search?q=foo"]
        extractions := 0 } := by
  have h := claim_C4 none c4Responses 0 9 (initState "foo") 403 none
    { snippets := [], nextLink := none } rfl (by omega) (by omega)
  exact h

/-! ### Claim C5 -/

/-- First response is HTTP 429 with the non-numeric `Retry-After` value
`"soon"`; a well-formed final page follows, which the claim predicts would be
reached by retrying. -/
def c5Responses : Nat → HttpResult :=
  fun i => if i = 0 then .response 429 (some "soon") chainPage2
           else .response 200 none chainPage2

/-- Claim C5 is false as stated: with rate limit 1 and a 429 response whose
`Retry-After` is the non-numeric string `"soon"`, the same path is not
retried on the next iteration - `int("soon")` raises `ValueError`, no sleep
is performed, and the call aborts with an exception. -/
theorem claim_C5_counterexample :
    search_run "q" 2 (some 1) c5Responses = .error (PyError.valueError,
      { next_path := "/search?q=q"
        gist_urls := []
        sleeps := []
        paths := ["/search?q=q"]
        extractions := 0 }) := rfl

/-- Claim C5 (amended): for every HTTP 429 response whose `Retry-After`
value, when present, parses to a nonnegative integer whenever the
caller-supplied rate limit is truthy: no URLs are appended to the result for
that attempt and `next_path` is left unchanged, so the same path is retried
on the next iteration; the sleep before retrying is the `Retry-After` header
value (defaulting to 1 second if the header is absent) when the rate limit is
truthy, and a fixed 60 seconds otherwise.  (Under a truthy rate limit a
non-numeric `Retry-After` raises `ValueError` from `int(...)`, and a negative
numeric one raises `ValueError` from `time.sleep`; in both cases there is no
sleep and no retry.) -/
theorem claim_C5_amended (rate_limit : Option ℚ) (responses : Nat → HttpResult)
    (k f : Nat) (s : LoopState) (ra : Option String) (p : Page)
    (hresp : responses k = .response 429 ra p)
    (hra : truthy rate_limit = true → ∀ v, ra = some v → ∃ n, pyInt v = some n ∧ 0 ≤ n) :
    runFrom rate_limit responses k (f + 1) s =
      runFrom rate_limit responses (k + 1) f
        { s with paths := s.paths ++ [s.next_path]
                 sleeps := s.sleeps ++ [sleep429 rate_limit ra] } ∧
    (truthy rate_limit = false → sleep429 rate_limit ra = 60) ∧
    (truthy rate_limit = true → ra = none → sleep429 rate_limit ra = 1) ∧
    (truthy rate_limit = true → ∀ v n, ra = some v → pyInt v = some n →
      sleep429 rate_limit ra = (n : ℚ)) := by
  have hstep := step_429_cont rate_limit s ra p hra
  rw [← hresp] at hstep
  refine ⟨runFrom_succ_cont rate_limit responses k f s _ hstep, ?_, ?_, ?_⟩
  · intro hf
    cases rate_limit with
    | none => rfl
    | some q =>
      by_cases hq : q = 0
      · simp [sleep429, hq]
      · rw [truthy_some_true hq] at hf
        exact absurd hf (by simp)
  · intro ht hranone
    subst hranone
    cases rate_limit with
    | none => simp [truthy] at ht
    | some q =>
      have hq := truthy_some_ne ht
      simp [sleep429, hq]
  · intro ht v n hv hn
    subst hv
    cases rate_limit with
    | none => simp [truthy] at ht
    | some q =>
      have hq := truthy_some_ne ht
      simp [sleep429, hq, hn]

/-- First response is HTTP 429 with numeric `Retry-After: 7`; a well-formed
page follows. -/
def c5wResponses : Nat → HttpResult :=
  fun i => if i = 0 then .response 429 (some "7") chainPage2
           else .response 200 none chainPage2

theorem claim_C5_witness :
    runFrom (some 2) c5wResponses 0 2 (initState "q") =
      runFrom (some 2) c5wResponses 1 1
        { next_path := "/search?q=q"
          gist_urls := []
          sleeps := [sleep429 (some 2) (some "7")]
          paths := ["/search?q=q"]
          extractions := 0 } ∧
    sleep429 (some 2) (some "7") = (7 : ℚ) := by
  have h := claim_C5_amended (some 2) c5wResponses 0 1 (initState "q") (some "7") chainPage2
    rfl (fun _ v hv => by injection hv with hv'; subst hv'; exact ⟨7, by decide, by decide⟩)
  exact ⟨h.1, by decide⟩

/-! ### Claim C6 -/

/-- First request fails with a transport error; a well-formed page follows. -/
def c6Responses : Nat → HttpResult :=
  fun i => if i = 0 then .requestException else .response 200 none chainPage2

/-- Claim C6 is false as stated: with the (truthy) negative rate limit `-1`,
a transport failure is not followed by sleep-and-continue - the source calls
`time.sleep(1 / -1)`, which raises `ValueError` (uncaught by the
`except requests.RequestException` clause), so the call aborts instead of
retrying the page. -/
theorem claim_C6_counterexample :
    search_run "q" 2 (some (-1)) c6Responses = .error (PyError.valueError,
      { next_path := "/search?q=q"
        gist_urls := []
        sleeps := []
        paths := ["/search?q=q"]
        extractions := 0 }) := rfl

/-- Claim C6 (amended): for every network/transport-level failure
(`requests.RequestException`), provided the caller-supplied rate limit is
positive whenever it is truthy, the loop sleeps following the same branching
policy as the 429 case (`1 / rate_limit` seconds when the rate limit is
truthy, the 60-second default otherwise) and continues: `next_path` and
`gist_urls` are unchanged, so the same page is retried on the next iteration,
and exactly one unit of the `page_limit` budget is consumed.  (A negative
truthy rate limit instead raises `ValueError` from
`time.sleep(1 / rate_limit)`.) -/
theorem claim_C6_amended (rate_limit : Option ℚ) (responses : Nat → HttpResult)
    (k f : Nat) (s : LoopState) (hresp : responses k = .requestException)
    (hpos : truthy rate_limit = true → ∀ q, rate_limit = some q → 0 < q) :
    runFrom rate_limit responses k (f + 1) s =
      runFrom rate_limit responses (k + 1) f
        { s with paths := s.paths ++ [s.next_path]
                 sleeps := s.sleeps ++ [errSleep rate_limit] } ∧
    (∀ q, rate_limit = some q → q ≠ 0 → errSleep rate_limit = 1 / q) ∧
    (rate_limit = none ∨ rate_limit = some 0 → errSleep rate_limit = 60) := by
  have hstep := step_exn_cont rate_limit s hpos
  rw [← hresp] at hstep
  refine ⟨runFrom_succ_cont rate_limit responses k f s _ hstep, ?_, ?_⟩
  · intro q hq hq0
    subst hq
    simp [errSleep, hq0]
  · intro h
    rcases h with h | h <;> subst h <;> simp [errSleep]

theorem claim_C6_witness :
    runFrom (some 4) c6Responses 0 3 (initState "q") =
      runFrom (some 4) c6Responses 1 2
        { next_path := "/search?q=q"
          gist_urls := []
          sleeps := [errSleep (some 4)]
          paths := ["/search?q=q"]
          extractions := 0 } ∧
    errSleep (some 4) = 1 / 4 := by
  have h := claim_C6_amended (some 4) c6Responses 0 2 (initState "q") rfl
    (fun _ q hq => by injection hq with h4; subst h4; norm_num)
  refine ⟨h.1, ?_⟩
  norm_num [errSleep]

end GistFinder

namespace GistFinder

/-! ### Claim C7 -/

/-- Upper-case hexadecimal digit. -/
def hexDigitChar (n : Nat) : Char :=
  if n < 10 then Char.ofNat (48 + n) else Char.ofNat (55 + n)

/-- Modelled from the spec: one character of the "URL-encoded" query -
RFC 3986 unreserved characters (letters, digits, `-`, `.`, `_`, `~`) are kept,
every other character is percent-encoded from its code point (stated for the
ASCII range, which suffices for the comparison below). -/
def specUrlEncodeChar (c : Char) : String :=
  if c.isAlphanum || c = '-' || c = '.' || c = '_' || c = '~' then
    String.singleton c
  else
    "%" ++ String.singleton (hexDigitChar (c.toNat / 16 % 16))
        ++ String.singleton (hexDigitChar (c.toNat % 16))

/-- Modelled from the spec: "`query` is a non-empty string, URL-encoded into a
search endpoint" - percent-encoding of the query string. -/
def specUrlEncode (s : String) : String :=
  String.join (s.toList.map specUrlEncodeChar)

/-- Claim C7 is false as stated: for the query `"a b"` the first requested
path is `/search?q=a b` (the f-string interpolates the query verbatim), not
the URL-encoded `/search?q=a%20b` that the claim prescribes. -/
theorem claim_C7_counterexample :
    (finalState (search_run "a b" 2 none c4Responses)).paths.head? ≠
      some ("/search?q=" ++ specUrlEncode "a b") := by decide

/-- Claim C7 (amended): for every query string, the first requested path is
the search endpoint with the query interpolated verbatim - `/search?q=` ++
query, with no URL-encoding applied - whenever at least one request is made
(`page_limit > 0`). -/
theorem claim_C7_amended (query : String) (page_limit : Nat) (rate_limit : Option ℚ)
    (responses : Nat → HttpResult) (hpl : 0 < page_limit) :
    (finalState (search_run query page_limit rate_limit responses)).paths.head? =
      some ("/search?q=" ++ query) := by
  obtain ⟨f, rfl⟩ : ∃ f, page_limit = f + 1 := ⟨page_limit - 1, by omega⟩
  unfold search_run
  have hp := step_paths rate_limit (initState query) (responses 0)
  cases hstep : step rate_limit (initState query) (responses 0) with
  | cont s' =>
    rw [hstep] at hp
    simp only [outState] at hp
    rw [runFrom_succ_cont rate_limit responses 0 f _ s' hstep]
    have hpre := runFrom_paths_mono rate_limit responses f 1 s'
    rw [hp] at hpre
    simp only [initState, initial_next_path, List.nil_append] at hpre
    obtain ⟨t, ht⟩ := hpre
    rw [← ht]
    rfl
  | brk s' =>
    rw [hstep] at hp
    simp only [outState] at hp
    rw [runFrom_succ_brk rate_limit responses 0 f _ s' hstep]
    rw [show finalState (Except.ok s' : Except (PyError × LoopState) LoopState) = s' from rfl, hp]
    rfl
  | raise e s' =>
    rw [hstep] at hp
    simp only [outState] at hp
    rw [runFrom_succ_raise rate_limit responses 0 f _ s' e hstep]
    rw [show finalState (Except.error (e, s') : Except (PyError × LoopState) LoopState) = s'
      from rfl, hp]
    rfl

theorem claim_C7_witness :
    (finalState (search_run "a b" 2 none c4Responses)).paths.head? =
      some ("/search?q=" ++ "a b") :=
  claim_C7_amended "a b" 2 none c4Responses (by omega)

/-! ### Claim C8 -/

/-- Claim C8 (confirmed): during a single call, the `gist_urls` accumulator
only ever grows - after every loop iteration (continue, break or raise) the
previous list is a prefix of the new one, so no element is removed, reordered
or deduplicated and elements keep discovery order; the same holds across the
whole loop. -/
theorem claim_C8 :
    (∀ (rl : Option ℚ) (s : LoopState) (r : HttpResult),
      s.gist_urls <+: (outState (step rl s r)).gist_urls) ∧
    (∀ (rl : Option ℚ) (resp : Nat → HttpResult) (fuel i : Nat) (s : LoopState),
      s.gist_urls <+: (finalState (runFrom rl resp i fuel s)).gist_urls) :=
  ⟨step_urls_mono, fun rl resp fuel i s => runFrom_urls_mono rl resp fuel i s⟩

/-! ### Claim C9 -/

/-- Claim C9 (confirmed): `search_github_gists` is deterministic with respect
to the response stream - two calls with identical arguments and pointwise
identical response sequences produce identical results (hence identical
`gist_urls` content and ordering). -/
theorem claim_C9 (query : String) (page_limit : Nat) (rate_limit : Option ℚ)
    (responses1 responses2 : Nat → HttpResult)
    (h : ∀ i, responses1 i = responses2 i) :
    search_github_gists query page_limit rate_limit responses1 =
      search_github_gists query page_limit rate_limit responses2 := by
  have he : responses1 = responses2 := funext h
  rw [he]

/-- A constant response stream. -/
def c9ResponsesA : Nat → HttpResult := fun _ => .response 200 none chainPage2

/-- The same stream, written differently. -/
def c9ResponsesB : Nat → HttpResult :=
  fun i => if 0 ≤ i then .response 200 none chainPage2 else .requestException

theorem claim_C9_witness :
    search_github_gists "k" 4 none c9ResponsesA =
      search_github_gists "k" 4 none c9ResponsesB :=
  claim_C9 "k" 4 none c9ResponsesA c9ResponsesB
    (fun i => by simp [c9ResponsesA, c9ResponsesB])

/-! ### Claim C10 -/

/-- Claim C10 (confirmed): if the caller passes `rate_limit = 0` (or `None`),
every backoff branch takes the default path, so every sleep the call performs
- on 429 responses and on transport errors alike - lasts exactly 60 seconds;
in particular the rate-based expression `1 / rate_limit` is never evaluated
(in the embedding that branch is guarded by `rate_limit ≠ 0`), so division by
zero is unreachable. -/
theorem claim_C10 (query : String) (page_limit : Nat) (rate_limit : Option ℚ)
    (responses : Nat → HttpResult) (hrl : rate_limit = none ∨ rate_limit = some 0) :
    all60 (finalState (search_run query page_limit rate_limit responses)).sleeps = true := by
  unfold search_run
  exact runFrom_sleeps_default rate_limit responses hrl page_limit 0 (initState query) rfl

/-- One 429 response and one transport error before a successful page. -/
def c10Responses : Nat → HttpResult :=
  fun i => if i = 0 then .response 429 none chainPage2
           else if i = 1 then .requestException
           else .response 200 none chainPage2

theorem claim_C10_witness :
    all60 (finalState (search_run "k" 3 (some 0) c10Responses)).sleeps = true ∧
    (finalState (search_run "k" 3 (some 0) c10Responses)).sleeps = [60, 60] := by
  refine ⟨claim_C10 "k" 3 (some 0) c10Responses (Or.inr rfl), ?_⟩
  decide

end GistFinder
